import Mathlib

/-!
Shallow embedding of the video-generation orchestration layer of the
AD-Factory-AI repository: the two provider adapters (`src/server/arcads.ts`,
`src/server/wav2lip.ts`), the completion pollers, the route handlers that
wire them together (`server/routes.ts`) and the script store
(`server/storage.ts`, `FileStorage`).

Modelling conventions:
* JavaScript truthiness of optional strings (undefined, null and the empty
  string are falsy) is modelled by `truthy`.
* Network transports are oracles passed in as explicit arguments: a status
  poller receives the sequence of `checkVideoStatus` outcomes as a function
  `Nat -> Except String VideoResponse` (index = attempt number), and an
  adapter receives the outcome of its single fetch.  A thrown JavaScript
  `Error` is an `Except.error` carrying the message.
* Functions additionally return how many network requests they issued (or
  the request payload itself, as an `Option`), so that claims about "zero
  network calls" and about outgoing payloads are statable.
-/

namespace AdFactory

/-- JavaScript truthiness of a `string | null | undefined` value:
`undefined`/`null` (`none`) and the empty string are falsy. -/
def truthy : Option String → Bool
  | none => false
  | some s => s != ""

/-- JavaScript `a || b` on two optional strings (`a` falsy picks `b`). -/
def jsOr (a b : Option String) : Option String :=
  if truthy a then a else b

/-- JavaScript `a || b` where the fallback `b` is a plain string. -/
def jsOrD (a : Option String) (b : String) : String :=
  match a with
  | none => b
  | some s => if s != "" then s else b

/-- `shared/schema.ts` `ScriptMetadata`. -/
structure ScriptMetadata where
  characterCount : Nat
  estimatedDuration : Nat
  tone : String
  wordCount : Nat
deriving DecidableEq

/-- `shared/schema.ts` `Script`.  `videoUrl`/`videoJobId` are
`string | null`, hence `Option String`. -/
structure Script where
  id : String
  hook : String
  body : String
  cta : String
  type : String
  platform : String
  status : String
  metadata : ScriptMetadata
  createdAt : String
  generatedBatch : String
  videoStatus : String
  videoUrl : Option String
  videoJobId : Option String
deriving DecidableEq

/-- `shared/schema.ts` `Settings` (current version, with the Wav2Lip
fields). -/
structure Settings where
  adminEmail : String
  dailyScriptCount : Nat
  autoGenerateEnabled : Bool
  productFeatures : String
  lastUpdated : String
  arcadsAvatarId : String
  autoGenerateVideos : Bool
  wav2lipApiUrl : String
  wav2lipAvatarImageUrl : String
  wav2lipEnabled : Bool
  preferredVideoProvider : String
deriving DecidableEq

/-- The normalized provider response (`ArcadsVideoResponse` /
`Wav2LipVideoResponse`).  All fields are `Option` because at runtime the
parsed JSON may lack any of them. -/
structure VideoResponse where
  jobId : Option String := none
  status : Option String := none
  videoUrl : Option String := none
  error : Option String := none
deriving DecidableEq

/-- Result of a poller: the resolved response, or the message of the
thrown `Error`. -/
inductive PollOutcome where
  | ok (r : VideoResponse)
  | err (msg : String)
deriving DecidableEq

/-- Parsed JSON body of a fetch response; every key the two adapters read.
`jobIdCamel`/`videoUrlCamel` are the camelCase `jobId`/`videoUrl` keys of
the self-hosted provider. -/
structure JsonBody where
  job_id : Option String := none
  jobIdCamel : Option String := none
  idField : Option String := none
  status : Option String := none
  video_url : Option String := none
  videoUrlCamel : Option String := none
  error : Option String := none
deriving DecidableEq

/-- A fetch `Response`: HTTP ok flag, HTTP status code, body text (used in
error messages) and parsed JSON body. -/
structure FetchResponse where
  ok : Bool
  status : Nat
  text : String := ""
  json : JsonBody := {}
deriving DecidableEq

/-! ## FileStorage (`server/storage.ts`) -/

/-- `FileStorage.updateScriptVideo`: find the first script with the given
id (`findIndex`), overwrite its `videoStatus`, `videoUrl` and `videoJobId`,
persist, and return the updated script; `(scripts, none)` when no script
matches (the source returns `undefined` and writes nothing new). -/
def updateScriptVideo : List Script → String → String → Option String → Option String → List Script × Option Script
  | [], _, _, _, _ => ([], none)
  | s :: rest, id, vs, vu, vj =>
    if s.id = id then
      let s2 := { s with videoStatus := vs, videoUrl := vu, videoJobId := vj }
      (s2 :: rest, some s2)
    else
      let r := updateScriptVideo rest id vs vu vj
      (s :: r.1, r.2)

/-! ## Arcads adapter (`src/server/arcads.ts`) -/

/-- The JSON payload `ArcadsGenerateRequest` sent by
`ArcadsService.generateVideo` (`voice_settings` is the constant
`{speed: 1.0, pitch: 1.0}`). -/
structure ArcadsGenerateRequest where
  script : String
  avatar_id : String
  voiceSpeed : Nat := 1
  voicePitch : Nat := 1
deriving DecidableEq

/-- `ArcadsService.generateVideo`: throws when the API key is missing
(before any fetch), otherwise posts the concatenated script text and
normalizes the JSON reply.  The second component is the payload handed to
`fetch` (`none` = no network call was made). -/
def Arcads.generateVideo (apiKey avatarId : String) (script : Script)
    (transport : ArcadsGenerateRequest → Except String FetchResponse) :
    Except String VideoResponse × Option ArcadsGenerateRequest :=
  if apiKey = "" then
    (Except.error "Arcads API key not configured", none)
  else
    let fullScript := script.hook ++ " " ++ script.body ++ " " ++ script.cta
    let requestBody : ArcadsGenerateRequest := { script := fullScript, avatar_id := avatarId }
    match transport requestBody with
    | Except.error e => (Except.error e, some requestBody)
    | Except.ok response =>
      if response.ok = false then
        (Except.error ("Arcads API error: " ++ toString response.status), some requestBody)
      else
        (Except.ok
          { jobId := jsOr response.json.job_id response.json.idField
            status := some (jsOrD response.json.status "pending")
            videoUrl := response.json.video_url
            error := none }, some requestBody)

set_option linter.unusedVariables false in
/-- `ArcadsService.checkVideoStatus`: throws when the API key is missing
(before any fetch); otherwise one GET (the job id only selects the URL
queried, which the transport oracle already stands for).  The second
component counts the fetch calls made. -/
def Arcads.checkVideoStatus (apiKey jobId : String)
    (transport : Except String FetchResponse) :
    Except String VideoResponse × Nat :=
  if apiKey = "" then
    (Except.error "Arcads API key not configured", 0)
  else
    match transport with
    | Except.error e => (Except.error e, 1)
    | Except.ok response =>
      if response.ok = false then
        (Except.error ("Arcads API error: " ++ toString response.status), 1)
      else
        (Except.ok
          { jobId := response.json.job_id
            status := response.json.status
            videoUrl := response.json.video_url
            error := none }, 1)

/-- Loop body of `ArcadsService.pollVideoCompletion`: `check i` is the
outcome of the status query at attempt `i`; `fuel` is the number of loop
iterations left.  Returns the result together with the number of status
queries made. -/
def Arcads.pollAux (check : Nat → Except String VideoResponse) (attempt : Nat) :
    Nat → PollOutcome × Nat
  | 0 => (PollOutcome.err "Video generation timed out", 0)
  | fuel + 1 =>
    match check attempt with
    | Except.error e => (PollOutcome.err e, 1)
    | Except.ok status =>
      if status.status = some "completed" ∧ truthy status.videoUrl = true then
        (PollOutcome.ok status, 1)
      else if status.status = some "failed" then
        (PollOutcome.err "Video generation failed", 1)
      else
        let rest := Arcads.pollAux check (attempt + 1) fuel
        (rest.1, rest.2 + 1)

/-- `ArcadsService.pollVideoCompletion` (default `maxAttempts = 30`). -/
def Arcads.pollVideoCompletion (check : Nat → Except String VideoResponse)
    (maxAttempts : Nat := 30) : PollOutcome × Nat :=
  Arcads.pollAux check 0 maxAttempts

/-! ## Wav2Lip adapter (`src/server/wav2lip.ts`) -/

/-- `MAX_POLL_ATTEMPTS` of `wav2lip.ts`. -/
def MAX_POLL_ATTEMPTS : Nat := 60

/-- The multipart form payload sent to the Wav2Lip `/generate` endpoint. -/
structure Wav2lipFormData where
  audio : List Nat
  image_url : String
  script_id : String
deriving DecidableEq

/-- `textToSpeech`: returns `null` when no OpenAI client is configured or
when the TTS call fails; the configured client is an oracle from input
text to either audio bytes or failure. -/
def Wav2lip.textToSpeech (openaiClient : Option (String → Option (List Nat)))
    (text : String) : Option (List Nat) :=
  match openaiClient with
  | none => none
  | some speak => speak text

/-- Wav2Lip `generateVideo`: synthesizes speech for the concatenated
script text, throws "Failed to generate audio from script text" when TTS
yields nothing, otherwise posts the form data.  The second component is
the payload handed to `fetch` of the video endpoint (`none` = no HTTP
request was made). -/
def Wav2lip.generateVideo (openaiClient : Option (String → Option (List Nat)))
    (script : Script) (avatarImageUrl : String)
    (transport : Wav2lipFormData → Except String FetchResponse) :
    Except String VideoResponse × Option Wav2lipFormData :=
  let fullText := script.hook ++ " " ++ script.body ++ " " ++ script.cta
  match Wav2lip.textToSpeech openaiClient fullText with
  | none => (Except.error "Failed to generate audio from script text", none)
  | some audioBuffer =>
    let formData : Wav2lipFormData :=
      { audio := audioBuffer, image_url := avatarImageUrl, script_id := script.id }
    match transport formData with
    | Except.error e => (Except.error e, some formData)
    | Except.ok response =>
      if response.ok = false then
        (Except.error ("Wav2Lip API error: " ++ toString response.status ++ " - " ++ response.text),
          some formData)
      else
        (Except.ok
          { jobId := jsOr response.json.job_id response.json.jobIdCamel
            status := some (jsOrD response.json.status "pending")
            videoUrl := jsOr response.json.video_url response.json.videoUrlCamel
            error := none }, some formData)

/-- Wav2Lip `checkVideoStatus`: one GET to `/status/:jobId`. -/
def Wav2lip.checkVideoStatus (jobId : String)
    (transport : Except String FetchResponse) : Except String VideoResponse :=
  match transport with
  | Except.error e => Except.error e
  | Except.ok response =>
    if response.ok = false then
      Except.error ("Wav2Lip status check failed: " ++ toString response.status)
    else
      Except.ok
        { jobId := some jobId
          status := response.json.status
          videoUrl := jsOr response.json.video_url response.json.videoUrlCamel
          error := response.json.error }

/-- Body of the `try` block inside the Wav2Lip poll loop: `.ok (some r)`
means `return status`, `.ok none` means fall through to the next attempt,
`.error` is a throw (from `checkVideoStatus` or from the explicit
`status.status === "failed"` throw) that the surrounding `catch` will
swallow. -/
def Wav2lip.tryBody (resp : Except String VideoResponse) :
    Except String (Option VideoResponse) :=
  match resp with
  | Except.error e => Except.error e
  | Except.ok status =>
    if status.status = some "complete" then
      Except.ok (some status)
    else if status.status = some "failed" then
      Except.error (jsOrD status.error "Video generation failed")
    else
      Except.ok none

/-- Loop of the Wav2Lip `pollVideoCompletion`: `while attempts < MAX`,
each iteration makes one status query; any throw inside the `try` block
(including the explicit throw on a "failed" status) is caught by the
`catch`, which only logs and increments `attempts`. -/
def Wav2lip.pollAux (check : Nat → Except String VideoResponse) (attempts : Nat) :
    Nat → PollOutcome × Nat
  | 0 => (PollOutcome.err "Video generation timed out", 0)
  | fuel + 1 =>
    match Wav2lip.tryBody (check attempts) with
    | Except.ok (some status) => (PollOutcome.ok status, 1)
    | Except.ok none =>
      let rest := Wav2lip.pollAux check (attempts + 1) fuel
      (rest.1, rest.2 + 1)
    | Except.error _ =>
      let rest := Wav2lip.pollAux check (attempts + 1) fuel
      (rest.1, rest.2 + 1)

/-- Wav2Lip `pollVideoCompletion` (fixed bound `MAX_POLL_ATTEMPTS`). -/
def Wav2lip.pollVideoCompletion (check : Nat → Except String VideoResponse) :
    PollOutcome × Nat :=
  Wav2lip.pollAux check 0 MAX_POLL_ATTEMPTS

/-! ## Route handlers (`server/routes.ts`) -/

/-- What an Express handler sends back: a success JSON (message plus the
optional job/script id it carries) or `res.status(code).json({error})`. -/
inductive RouteResult where
  | ok (msg : String) (extra : Option String)
  | err (code : Nat) (msg : String)
deriving DecidableEq

/-- `POST /api/scripts/:id/generate-video` (the commercial-provider
route), up to the point where the HTTP response is sent.  `startJob` is
the awaited outcome of `arcads.generateVideo`.  The handler looks the
script up (404 when absent), rejects when `ARCADS_API_KEY` is missing,
marks the script `pending`, awaits `generateVideo`, and on success marks
it `generating` with the provider job id; a throw lands in the outer
`catch`, which only sends a 500 — there is no duplicate-work guard and no
`failed` transition in this handler.  Returns the stored scripts at
response time and the response. -/
def generateVideoRoute (scripts : List Script) (apiKey : String) (id : String)
    (startJob : Except String VideoResponse) : List Script × RouteResult :=
  match scripts.find? (fun s => s.id == id) with
  | none => (scripts, RouteResult.err 404 "Script not found")
  | some _ =>
    if apiKey = "" then
      (scripts, RouteResult.err 400 "Arcads API key not configured")
    else
      let afterPending := (updateScriptVideo scripts id "pending" none none).1
      match startJob with
      | Except.error _ => (afterPending, RouteResult.err 500 "Failed to generate video")
      | Except.ok response =>
        let afterGenerating :=
          (updateScriptVideo afterPending id "generating" none response.jobId).1
        (afterGenerating, RouteResult.ok "Video generation started" response.jobId)

/-- `POST /api/wav2lip/generate-video` (the self-hosted route), up to the
point where the HTTP response is sent.  Validates the script id, looks the
script up, rejects with "Video is already being processed" when
`videoStatus` is `pending` or `generating`, checks the configured API URL
and avatar image, marks the script `pending` and acknowledges; the
`generateVideo` launch is detached (see
`wav2lipStartContinuation`). -/
def wav2lipGenerateVideoRoute (scripts : List Script) (settings : Settings)
    (scriptId : Option String) (avatarImageUrl : Option String) :
    List Script × RouteResult :=
  match scriptId with
  | none => (scripts, RouteResult.err 400 "Script ID is required")
  | some sid =>
    if sid = "" then (scripts, RouteResult.err 400 "Script ID is required")
    else
      match scripts.find? (fun s => s.id == sid) with
      | none => (scripts, RouteResult.err 404 "Script not found")
      | some script =>
        if script.videoStatus = "pending" ∨ script.videoStatus = "generating" then
          (scripts, RouteResult.err 400 "Video is already being processed")
        else if settings.wav2lipApiUrl = "" then
          (scripts, RouteResult.err 400 "Wav2Lip API URL not configured in settings")
        else
          let imageUrl := jsOrD avatarImageUrl settings.wav2lipAvatarImageUrl
          if imageUrl = "" then
            (scripts, RouteResult.err 400 "Avatar image URL is required")
          else
            let afterPending := (updateScriptVideo scripts sid "pending" none none).1
            (afterPending, RouteResult.ok "Wav2Lip video generation started" (some sid))

/-- The detached continuation of the self-hosted route once
`wav2lip.generateVideo` settles: on success mark `generating` with the job
id, on failure mark `failed`. -/
def wav2lipStartContinuation (scripts : List Script) (scriptId : String)
    (startJob : Except String VideoResponse) : List Script :=
  match startJob with
  | Except.ok response => (updateScriptVideo scripts scriptId "generating" none response.jobId).1
  | Except.error _ => (updateScriptVideo scripts scriptId "failed" none none).1

/-- Per-script body of `triggerVideoGeneration` (the batch path), through
the settling of the `arcads.generateVideo` promise: skip scripts whose
`videoStatus` is not `none`, otherwise mark `pending`, and on the start
outcome mark `generating` (success) or `failed` (failure). -/
def triggerVideoGenerationStep (scripts : List Script) (script : Script)
    (startJob : Except String VideoResponse) : List Script :=
  if script.videoStatus != "none" then scripts
  else
    let afterPending := (updateScriptVideo scripts script.id "pending" none none).1
    match startJob with
    | Except.ok response =>
      (updateScriptVideo afterPending script.id "generating" none response.jobId).1
    | Except.error _ =>
      (updateScriptVideo afterPending script.id "failed" none none).1

/-- Body of the `GET /api/arcads/status` response. -/
structure ArcadsStatusBody where
  configured : Bool
deriving DecidableEq

/-- Body of the `GET /api/wav2lip/status` response. -/
structure Wav2lipStatusBody where
  configured : Bool
  apiUrl : Option String
  avatarImageUrl : Option String
  enabled : Bool
deriving DecidableEq

/-- `GET /api/arcads/status`: `configured: !!process.env.ARCADS_API_KEY`.
The second component counts provider network calls made by the handler
(its body contains none). -/
def arcadsStatusRoute (arcadsApiKey : Option String) : ArcadsStatusBody × Nat :=
  ({ configured := truthy arcadsApiKey }, 0)

/-- `GET /api/wav2lip/status`: `configured: !!settings.wav2lipApiUrl`,
plus the echoed settings (`x || null` modelled through truthiness).  The
second component counts provider network calls made by the handler (its
body contains none). -/
def wav2lipStatusRoute (settings : Settings) : Wav2lipStatusBody × Nat :=
  ({ configured := settings.wav2lipApiUrl != ""
     apiUrl := if settings.wav2lipApiUrl != "" then some settings.wav2lipApiUrl else none
     avatarImageUrl :=
       if settings.wav2lipAvatarImageUrl != "" then some settings.wav2lipAvatarImageUrl else none
     enabled := settings.wav2lipEnabled }, 0)

/-! ## Sample data used by witnesses and counterexamples -/

/-- A concrete metadata record. -/
def sampleMetadata : ScriptMetadata :=
  { characterCount := 3, estimatedDuration := 5, tone := "excited", wordCount := 3 }

/-- A concrete script with hook "H", body "B", cta "C" and no video yet. -/
def sampleScript : Script :=
  { id := "s1", hook := "H", body := "B", cta := "C", type := "product-demo",
    platform := "tiktok", status := "pending", metadata := sampleMetadata,
    createdAt := "2026-01-01T00:00:00Z", generatedBatch := "b1",
    videoStatus := "none", videoUrl := none, videoJobId := none }

/-- A second concrete script with a different id. -/
def otherScript : Script :=
  { sampleScript with
    id := "s2", hook := "H2", videoStatus := "complete",
    videoUrl := some "https://x/old.mp4", videoJobId := some "done-job" }

/-- `sampleScript` with a video job currently generating. -/
def generatingScript : Script :=
  { sampleScript with videoStatus := "generating", videoJobId := some "old-job" }

/-- A provider acceptance reply carrying a fresh job id. -/
def newJobResponse : VideoResponse :=
  { jobId := some "new-job", status := some "pending" }

/-- A status reply that is still processing. -/
def processingResponse : VideoResponse :=
  { jobId := some "j", status := some "processing" }

/-- A status reply reporting completion together with a result URL. -/
def completedWithUrl : VideoResponse :=
  { jobId := some "j", status := some "completed", videoUrl := some "https://x/video.mp4" }

/-- A self-hosted status reply reporting "complete" with no result URL. -/
def completeNoUrl : VideoResponse :=
  { jobId := some "j", status := some "complete" }

/-- A status reply reporting failure. -/
def failedResponse : VideoResponse :=
  { jobId := some "j", status := some "failed", error := some "boom" }

/-- A concrete settings record with the Wav2Lip URL configured. -/
def sampleSettings : Settings :=
  { adminEmail := "", dailyScriptCount := 8, autoGenerateEnabled := true,
    productFeatures := "features", lastUpdated := "2026-01-01T00:00:00Z",
    arcadsAvatarId := "", autoGenerateVideos := false,
    wav2lipApiUrl := "http://localhost:8000",
    wav2lipAvatarImageUrl := "https://x/avatar.jpg", wav2lipEnabled := true,
    preferredVideoProvider := "arcads" }

/-! ## Helper lemmas -/

/-- Looking up the id just updated: `updateScriptVideo` maps the first
match of `find?` through the three-field overwrite. -/
theorem updateScriptVideo_find (scripts : List Script) (id vs : String)
    (vu vj : Option String) :
    (updateScriptVideo scripts id vs vu vj).1.find? (fun t => t.id == id) =
      (scripts.find? (fun t => t.id == id)).map
        (fun s => { s with videoStatus := vs, videoUrl := vu, videoJobId := vj }) := by
  induction scripts with
  | nil => rfl
  | cons s rest ih =>
    by_cases h : s.id = id
    · simp [updateScriptVideo, h, List.find?]
    · have hb : (s.id == id) = false := by simp [h]
      simp [updateScriptVideo, h, List.find?, ih, hb]

/-- When no stored script has the id, `updateScriptVideo` leaves the
store untouched and returns nothing. -/
theorem updateScriptVideo_no_match (scripts : List Script) (id vs : String)
    (vu vj : Option String) (h : ∀ t ∈ scripts, t.id ≠ id) :
    updateScriptVideo scripts id vs vu vj = (scripts, none) := by
  induction scripts with
  | nil => rfl
  | cons s rest ih =>
    have hs : s.id ≠ id := h s (List.mem_cons_self s rest)
    have hrest := ih (fun t ht => h t (List.mem_cons_of_mem s ht))
    simp [updateScriptVideo, hs, hrest]

/-- A successful Arcads poll result always carries status "completed" and
a truthy (non-empty) video URL. -/
theorem arcads_pollAux_ok_inv (check : Nat → Except String VideoResponse)
    (r : VideoResponse) :
    ∀ fuel attempt, (Arcads.pollAux check attempt fuel).1 = PollOutcome.ok r →
      r.status = some "completed" ∧ truthy r.videoUrl = true := by
  intro fuel
  induction fuel with
  | zero => intro attempt h; exact absurd h (by simp [Arcads.pollAux])
  | succ n ih =>
    intro attempt h
    rw [Arcads.pollAux] at h
    split at h
    · simp at h
    · split at h
      · rename_i status hcond
        simp only at h
        simp only [PollOutcome.ok.injEq] at h
        exact h ▸ hcond
      · split at h
        · simp at h
        · exact ih (attempt + 1) h

/-- A successful Wav2Lip poll result always carries status "complete"
(but nothing constrains its video URL). -/
theorem wav2lip_pollAux_ok_inv (check : Nat → Except String VideoResponse)
    (r : VideoResponse) :
    ∀ fuel attempts, (Wav2lip.pollAux check attempts fuel).1 = PollOutcome.ok r →
      r.status = some "complete" := by
  intro fuel
  induction fuel with
  | zero => intro attempts h; exact absurd h (by simp [Wav2lip.pollAux])
  | succ n ih =>
    intro attempts h
    rw [Wav2lip.pollAux] at h
    cases hc : Wav2lip.tryBody (check attempts) with
    | error e => rw [hc] at h; exact ih (attempts + 1) h
    | ok o =>
      cases o with
      | none => rw [hc] at h; exact ih (attempts + 1) h
      | some status =>
        rw [hc] at h
        simp only [PollOutcome.ok.injEq] at h
        subst h
        revert hc
        unfold Wav2lip.tryBody
        cases check attempts with
        | error e => intro hc; exact absurd hc (by simp)
        | ok st =>
          by_cases hcomp : st.status = some "complete"
          · simp [hcomp]
            intro hst; exact hst ▸ hcomp
          · by_cases hfail : st.status = some "failed" <;> simp [hcomp, hfail]

/-- If every attempt's `try` block neither returns nor completes (it
falls through or throws), the Wav2Lip loop runs out of attempts: timeout
after exactly `fuel` status queries. -/
theorem wav2lip_pollAux_exhaust (check : Nat → Except String VideoResponse)
    (h : ∀ i, (∀ r, Wav2lip.tryBody (check i) ≠ Except.ok (some r))) :
    ∀ fuel attempts, Wav2lip.pollAux check attempts fuel =
      (PollOutcome.err "Video generation timed out", fuel) := by
  intro fuel
  induction fuel with
  | zero => intro attempts; rfl
  | succ n ih =>
    intro attempts
    rw [Wav2lip.pollAux]
    cases hc : Wav2lip.tryBody (check attempts) with
    | error e => simp [ih]
    | ok o =>
      cases o with
      | none => simp [ih]
      | some status => exact absurd hc (h attempts status)

/-- If every status response is a plain "processing" reply, the Arcads
loop consumes all its attempts: timeout after exactly `fuel` queries. -/
theorem arcads_pollAux_processing (check : Nat → Except String VideoResponse)
    (h : ∀ i, ∃ r, check i = Except.ok r ∧ r.status = some "processing") :
    ∀ fuel attempt, Arcads.pollAux check attempt fuel =
      (PollOutcome.err "Video generation timed out", fuel) := by
  intro fuel
  induction fuel with
  | zero => intro attempt; rfl
  | succ n ih =>
    intro attempt
    obtain ⟨r, hr, hs⟩ := h attempt
    have h1 : ¬(r.status = some "completed" ∧ truthy r.videoUrl = true) := by
      rw [hs]; simp
    have h2 : r.status ≠ some "failed" := by rw [hs]; simp
    simp only [Arcads.pollAux, hr]
    rw [if_neg h1, if_neg h2]
    simp [ih]

/-! ## Claims -/

/-- C1 counterexample: a script whose videoStatus is "generating" (with a
stored job id) sent to the commercial route
`POST /api/scripts/:id/generate-video` is NOT rejected with an
already-in-progress error: the route acknowledges "Video generation
started" and overwrites the stored videoStatus/videoJobId with the new
job. -/
theorem C1_counterexample :
    generatingScript.videoStatus = "generating" ∧
      generatingScript.videoJobId = some "old-job" ∧
      (generateVideoRoute [generatingScript] "key" "s1" (Except.ok newJobResponse)).2 =
        RouteResult.ok "Video generation started" (some "new-job") ∧
      (generateVideoRoute [generatingScript] "key" "s1" (Except.ok newJobResponse)).1.map
          (fun t => t.videoJobId) = [some "new-job"] ∧
      (generateVideoRoute [generatingScript] "key" "s1" (Except.ok newJobResponse)).1.map
          (fun t => t.videoStatus) = ["generating"] :=
  ⟨rfl, rfl, rfl, rfl, rfl⟩

/-- C1 (amended): only the self-hosted route rejects a script whose
videoStatus is "pending" or "generating" with HTTP 400 "Video is already
being processed", leaving the stored scripts unchanged; the commercial
route has no duplicate-work guard: whenever the script exists and the API
key is set, it acknowledges the start and overwrites the stored
videoStatus (to "generating") and videoJobId (to the new job id). -/
theorem C1_amended :
    (∀ (scripts : List Script) (settings : Settings) (sid : String)
        (avatarImageUrl : Option String) (s : Script),
        sid ≠ "" →
        scripts.find? (fun t => t.id == sid) = some s →
        s.videoStatus = "pending" ∨ s.videoStatus = "generating" →
        wav2lipGenerateVideoRoute scripts settings (some sid) avatarImageUrl =
          (scripts, RouteResult.err 400 "Video is already being processed")) ∧
    (∀ (scripts : List Script) (apiKey id : String) (r : VideoResponse) (s : Script),
        apiKey ≠ "" →
        scripts.find? (fun t => t.id == id) = some s →
        (generateVideoRoute scripts apiKey id (Except.ok r)).2 =
            RouteResult.ok "Video generation started" r.jobId ∧
          (generateVideoRoute scripts apiKey id (Except.ok r)).1.find?
              (fun t => t.id == id) =
            some { s with videoStatus := "generating", videoUrl := none,
                          videoJobId := r.jobId }) := by
  constructor
  · intro scripts settings sid avatarImageUrl s hsid hfind hstat
    simp only [wav2lipGenerateVideoRoute]
    rw [if_neg hsid, hfind]
    simp only []
    rw [if_pos hstat]
  · intro scripts apiKey id r s hkey hfind
    constructor
    · simp only [generateVideoRoute]
      rw [hfind]
      simp only []
      rw [if_neg hkey]
    · simp only [generateVideoRoute]
      rw [hfind]
      simp only []
      rw [if_neg hkey]
      simp only []
      rw [updateScriptVideo_find, updateScriptVideo_find, hfind]
      rfl

/-- C1 witness: instantiates both halves of the amended claim at concrete
inputs. -/
theorem C1_witness :
    wav2lipGenerateVideoRoute [generatingScript] sampleSettings (some "s1") none =
        ([generatingScript], RouteResult.err 400 "Video is already being processed") ∧
      (generateVideoRoute [generatingScript] "key" "s1" (Except.ok newJobResponse)).1.find?
          (fun t => t.id == "s1") =
        some { generatingScript with
               videoStatus := "generating", videoUrl := none,
               videoJobId := some "new-job" } :=
  ⟨C1_amended.1 [generatingScript] sampleSettings "s1" none generatingScript
      (by decide) rfl (Or.inr rfl),
    (C1_amended.2 [generatingScript] "key" "s1" newJobResponse generatingScript
      (by decide) rfl).2⟩

/-- C2 counterexample: the self-hosted poller, fed a single status
response "complete" with no video URL, immediately returns that response
as success even though its result URL is absent. -/
theorem C2_counterexample :
    Wav2lip.pollVideoCompletion (fun _ => Except.ok completeNoUrl) =
        (PollOutcome.ok completeNoUrl, 1) ∧
      completeNoUrl.videoUrl = none ∧
      truthy completeNoUrl.videoUrl = false :=
  ⟨rfl, rfl, rfl⟩

/-- C2 (amended): the commercial poller returns success only when the
response status is "completed" and the result URL is present and
non-empty (anything else is treated as not yet terminal); the self-hosted
poller returns success exactly on a "complete" status, with no condition
on the result URL. -/
theorem C2_amended :
    (∀ (check : Nat → Except String VideoResponse) (maxAttempts : Nat)
        (r : VideoResponse),
        (Arcads.pollVideoCompletion check maxAttempts).1 = PollOutcome.ok r →
          r.status = some "completed" ∧ truthy r.videoUrl = true) ∧
    (∀ (check : Nat → Except String VideoResponse) (r : VideoResponse),
        (Wav2lip.pollVideoCompletion check).1 = PollOutcome.ok r →
          r.status = some "complete") := by
  constructor
  · intro check maxAttempts r h
    exact arcads_pollAux_ok_inv check r maxAttempts 0 h
  · intro check r h
    exact wav2lip_pollAux_ok_inv check r MAX_POLL_ATTEMPTS 0 h

/-- C2 witness: instantiates both halves of the amended claim on concrete
successful runs. -/
theorem C2_witness :
    ((Arcads.pollVideoCompletion (fun _ => Except.ok completedWithUrl) 5).1 =
        PollOutcome.ok completedWithUrl ∧
      completedWithUrl.status = some "completed" ∧
      truthy completedWithUrl.videoUrl = true) ∧
    ((Wav2lip.pollVideoCompletion (fun _ => Except.ok completeNoUrl)).1 =
        PollOutcome.ok completeNoUrl ∧
      completeNoUrl.status = some "complete") :=
  ⟨⟨rfl, C2_amended.1 (fun _ => Except.ok completedWithUrl) 5 completedWithUrl rfl⟩,
    ⟨rfl, C2_amended.2 (fun _ => Except.ok completeNoUrl) completeNoUrl rfl⟩⟩

/-- C3: evaluation at the failing input.  Fed a provider that answers
"failed" to every status query, the self-hosted poller does NOT stop at
the first failed response: its own catch swallows the terminal throw, it
issues all 60 status queries and ends with the timeout error instead of
the failure error. -/
theorem C3_claim :
    failedResponse.status = some "failed" ∧
      Wav2lip.pollVideoCompletion (fun _ => Except.ok failedResponse) =
        (PollOutcome.err "Video generation timed out", 60) := by
  refine ⟨rfl, ?_⟩
  have h : ∀ i : Nat, ∀ r, Wav2lip.tryBody ((fun _ => Except.ok failedResponse) i) ≠
      Except.ok (some r) := by
    intro i r
    simp [Wav2lip.tryBody, failedResponse, jsOrD]
  exact wav2lip_pollAux_exhaust (fun _ => Except.ok failedResponse) h MAX_POLL_ATTEMPTS 0

/-- C4: against a provider whose every status response is "processing",
the commercial poller with maxAttempts = N makes exactly N status queries
and then raises the timeout error, and the self-hosted poller (fixed
bound MAX_POLL_ATTEMPTS = 60) makes exactly 60 and then raises the
timeout error; both loops terminate. -/
theorem C4_claim (maxAttempts : Nat) (check : Nat → Except String VideoResponse)
    (h : ∀ i, ∃ r, check i = Except.ok r ∧ r.status = some "processing") :
    Arcads.pollVideoCompletion check maxAttempts =
        (PollOutcome.err "Video generation timed out", maxAttempts) ∧
      Wav2lip.pollVideoCompletion check =
        (PollOutcome.err "Video generation timed out", MAX_POLL_ATTEMPTS) := by
  constructor
  · exact arcads_pollAux_processing check h maxAttempts 0
  · have h2 : ∀ i : Nat, ∀ r, Wav2lip.tryBody (check i) ≠ Except.ok (some r) := by
      intro i r
      obtain ⟨st, hst, hs⟩ := h i
      rw [hst]
      simp [Wav2lip.tryBody, hs]
    exact wav2lip_pollAux_exhaust check h2 MAX_POLL_ATTEMPTS 0

/-- C4 witness: the always-processing provider at maxAttempts = 3. -/
theorem C4_witness :
    Arcads.pollVideoCompletion (fun _ => Except.ok processingResponse) 3 =
        (PollOutcome.err "Video generation timed out", 3) ∧
      Wav2lip.pollVideoCompletion (fun _ => Except.ok processingResponse) =
        (PollOutcome.err "Video generation timed out", MAX_POLL_ATTEMPTS) :=
  C4_claim 3 (fun _ => Except.ok processingResponse)
    (fun _ => ⟨processingResponse, rfl, rfl⟩)

/-- C5 counterexample: in the commercial route, when the synchronous
startJob call throws after the script was marked "pending", the handler
answers HTTP 500 and the stored videoStatus stays "pending" — it is not
transitioned to "failed". -/
theorem C5_counterexample :
    (generateVideoRoute [sampleScript] "key" "s1" (Except.error "startJob failed")).2 =
        RouteResult.err 500 "Failed to generate video" ∧
      (generateVideoRoute [sampleScript] "key" "s1" (Except.error "startJob failed")).1.map
          (fun t => t.videoStatus) = ["pending"] :=
  ⟨rfl, rfl⟩

/-- C5 (amended): when startJob fails after the script was marked
"pending", the batch trigger path and the self-hosted route's detached
continuation persist videoStatus = "failed"; the commercial per-script
route instead answers HTTP 500 and leaves the script stored at
"pending". -/
theorem C5_amended :
    (∀ (scripts : List Script) (script : Script) (e : String) (s : Script),
        script.videoStatus = "none" →
        scripts.find? (fun t => t.id == script.id) = some s →
        (triggerVideoGenerationStep scripts script (Except.error e)).find?
            (fun t => t.id == script.id) =
          some { s with videoStatus := "failed", videoUrl := none, videoJobId := none }) ∧
    (∀ (scripts : List Script) (sid e : String) (s : Script),
        scripts.find? (fun t => t.id == sid) = some s →
        (wav2lipStartContinuation scripts sid (Except.error e)).find?
            (fun t => t.id == sid) =
          some { s with videoStatus := "failed", videoUrl := none, videoJobId := none }) ∧
    (∀ (scripts : List Script) (apiKey id e : String) (s : Script),
        apiKey ≠ "" →
        scripts.find? (fun t => t.id == id) = some s →
        (generateVideoRoute scripts apiKey id (Except.error e)).2 =
            RouteResult.err 500 "Failed to generate video" ∧
          (generateVideoRoute scripts apiKey id (Except.error e)).1.find?
              (fun t => t.id == id) =
            some { s with videoStatus := "pending", videoUrl := none,
                          videoJobId := none }) := by
  refine ⟨?_, ?_, ?_⟩
  · intro scripts script e s hnone hfind
    have hskip : (script.videoStatus != "none") = false := by simp [hnone]
    simp only [triggerVideoGenerationStep, hskip, Bool.false_eq_true, if_false]
    rw [updateScriptVideo_find, updateScriptVideo_find, hfind]
    rfl
  · intro scripts sid e s hfind
    simp only [wav2lipStartContinuation]
    rw [updateScriptVideo_find, hfind]
    rfl
  · intro scripts apiKey id e s hkey hfind
    constructor
    · simp only [generateVideoRoute]
      rw [hfind]
      simp only []
      rw [if_neg hkey]
    · simp only [generateVideoRoute]
      rw [hfind]
      simp only []
      rw [if_neg hkey]
      simp only []
      rw [updateScriptVideo_find, hfind]
      rfl

/-- C5 witness: instantiates all three parts of the amended claim at
concrete inputs. -/
theorem C5_witness :
    (triggerVideoGenerationStep [sampleScript] sampleScript (Except.error "boom")).find?
        (fun t => t.id == "s1") =
      some { sampleScript with
             videoStatus := "failed", videoUrl := none, videoJobId := none } ∧
    (wav2lipStartContinuation [sampleScript] "s1" (Except.error "boom")).find?
        (fun t => t.id == "s1") =
      some { sampleScript with
             videoStatus := "failed", videoUrl := none, videoJobId := none } ∧
    (generateVideoRoute [sampleScript] "key" "s1" (Except.error "boom")).1.find?
        (fun t => t.id == "s1") =
      some { sampleScript with
             videoStatus := "pending", videoUrl := none, videoJobId := none } :=
  ⟨C5_amended.1 [sampleScript] sampleScript "boom" sampleScript rfl rfl,
    C5_amended.2.1 [sampleScript] "s1" "boom" sampleScript rfl,
    (C5_amended.2.2 [sampleScript] "key" "s1" "boom" sampleScript (by decide) rfl).2⟩

/-- C6: the commercial adapter called with an empty API key throws the
configuration error from both generateVideo and checkVideoStatus, with no
payload handed to fetch in the first case and a fetch count of zero in
the second, whatever the script, avatar and transport. -/
theorem C6_claim (avatarId : String) (script : Script)
    (t1 : ArcadsGenerateRequest → Except String FetchResponse)
    (jobId : String) (t2 : Except String FetchResponse) :
    Arcads.generateVideo "" avatarId script t1 =
        (Except.error "Arcads API key not configured", none) ∧
      Arcads.checkVideoStatus "" jobId t2 =
        (Except.error "Arcads API key not configured", 0) :=
  ⟨rfl, rfl⟩

/-- C7: the self-hosted adapter invoked with no TTS client rejects with
the failed-audio error and hands no request to the video endpoint,
whatever the script, avatar image and transport. -/
theorem C7_claim (script : Script) (avatarImageUrl : String)
    (transport : Wav2lipFormData → Except String FetchResponse) :
    Wav2lip.generateVideo none script avatarImageUrl transport =
      (Except.error "Failed to generate audio from script text", none) :=
  rfl

/-- C8: whenever the commercial adapter is configured, the payload it
hands to fetch has its script field equal to hook ++ " " ++ body ++ " "
++ cta (and the configured avatar id), regardless of the transport
outcome. -/
theorem C8_claim (apiKey avatarId : String) (script : Script)
    (transport : ArcadsGenerateRequest → Except String FetchResponse)
    (h : apiKey ≠ "") :
    (Arcads.generateVideo apiKey avatarId script transport).2 =
      some { script := script.hook ++ " " ++ script.body ++ " " ++ script.cta,
             avatar_id := avatarId } := by
  simp only [Arcads.generateVideo]
  rw [if_neg h]
  split
  · rfl
  · split <;> rfl

/-- C8 witness: hook "H", body "B", cta "C" yields the payload script
field "H B C". -/
theorem C8_witness :
    ("key" : String) ≠ "" ∧
      (Arcads.generateVideo "key" "av1" sampleScript
          (fun _ => Except.error "network down")).2 =
        some { script := "H B C", avatar_id := "av1" } :=
  ⟨by decide,
    (C8_claim "key" "av1" sampleScript (fun _ => Except.error "network down")
        (by decide)).trans rfl⟩

/-- C9: the availability endpoints report configured exactly when the
credential is set and non-empty (ARCADS_API_KEY for the commercial
provider, settings.wav2lipApiUrl for the self-hosted one), and their
handlers make zero provider network calls. -/
theorem C9_claim (k : String) (apiKey : Option String) (settings : Settings) :
    (k ≠ "" → (arcadsStatusRoute (some k)).1.configured = true) ∧
      (arcadsStatusRoute (some "")).1.configured = false ∧
      (arcadsStatusRoute none).1.configured = false ∧
      (arcadsStatusRoute apiKey).2 = 0 ∧
      (settings.wav2lipApiUrl ≠ "" → (wav2lipStatusRoute settings).1.configured = true) ∧
      (settings.wav2lipApiUrl = "" → (wav2lipStatusRoute settings).1.configured = false) ∧
      (wav2lipStatusRoute settings).2 = 0 := by
  refine ⟨?_, rfl, rfl, rfl, ?_, ?_, rfl⟩
  · intro hk
    simp [arcadsStatusRoute, truthy, hk]
  · intro hu
    simp [wav2lipStatusRoute, hu]
  · intro hu
    simp [wav2lipStatusRoute, hu]

/-- C9 witness: a set key and a configured Wav2Lip URL give configured =
true, with zero provider calls. -/
theorem C9_witness :
    (arcadsStatusRoute (some "key")).1.configured = true ∧
      (wav2lipStatusRoute sampleSettings).1.configured = true ∧
      (arcadsStatusRoute (some "key")).2 = 0 ∧
      (wav2lipStatusRoute sampleSettings).2 = 0 := by
  obtain ⟨h1, _, _, h4, h5, _, h7⟩ := C9_claim "key" (some "key") sampleSettings
  exact ⟨h1 (by decide), h5 (by decide), h4, h7⟩

/-- C10: updateScriptVideo touches only the matched script, overwrites
exactly its videoStatus, videoUrl and videoJobId (every other field of
that script and every other stored script is unchanged) and returns the
updated script; when no stored script has the id it returns none and
leaves the store unchanged. -/
theorem C10_claim :
    (∀ (pre post : List Script) (s : Script) (vs : String) (vu vj : Option String),
        (∀ t ∈ pre, t.id ≠ s.id) →
        updateScriptVideo (pre ++ s :: post) s.id vs vu vj =
            (pre ++ { s with videoStatus := vs, videoUrl := vu, videoJobId := vj } :: post,
              some { s with videoStatus := vs, videoUrl := vu, videoJobId := vj }) ∧
          ({ s with videoStatus := vs, videoUrl := vu, videoJobId := vj }).id = s.id ∧
          ({ s with videoStatus := vs, videoUrl := vu, videoJobId := vj }).hook = s.hook ∧
          ({ s with videoStatus := vs, videoUrl := vu, videoJobId := vj }).body = s.body ∧
          ({ s with videoStatus := vs, videoUrl := vu, videoJobId := vj }).cta = s.cta ∧
          ({ s with videoStatus := vs, videoUrl := vu, videoJobId := vj }).type = s.type ∧
          ({ s with videoStatus := vs, videoUrl := vu, videoJobId := vj }).platform = s.platform ∧
          ({ s with videoStatus := vs, videoUrl := vu, videoJobId := vj }).status = s.status ∧
          ({ s with videoStatus := vs, videoUrl := vu, videoJobId := vj }).metadata = s.metadata ∧
          ({ s with videoStatus := vs, videoUrl := vu, videoJobId := vj }).createdAt = s.createdAt ∧
          ({ s with videoStatus := vs, videoUrl := vu, videoJobId := vj }).generatedBatch = s.generatedBatch) ∧
    (∀ (scripts : List Script) (id vs : String) (vu vj : Option String),
        (∀ t ∈ scripts, t.id ≠ id) →
        updateScriptVideo scripts id vs vu vj = (scripts, none)) := by
  constructor
  · intro pre post s vs vu vj hpre
    refine ⟨?_, rfl, rfl, rfl, rfl, rfl, rfl, rfl, rfl, rfl, rfl⟩
    induction pre with
    | nil => simp [updateScriptVideo]
    | cons p rest ih =>
      have hp : p.id ≠ s.id := hpre p (List.mem_cons_self p rest)
      have hrest := ih (fun t ht => hpre t (List.mem_cons_of_mem p ht))
      simp [updateScriptVideo, hp, hrest]
  · intro scripts id vs vu vj h
    exact updateScriptVideo_no_match scripts id vs vu vj h

/-- C10 witness: a two-script store where the second script matches, and
a store without any match. -/
theorem C10_witness :
    updateScriptVideo [otherScript, sampleScript] "s1" "complete"
        (some "https://x/new.mp4") (some "job-9") =
      ([otherScript,
        { sampleScript with
          videoStatus := "complete", videoUrl := some "https://x/new.mp4",
          videoJobId := some "job-9" }],
        some { sampleScript with
               videoStatus := "complete", videoUrl := some "https://x/new.mp4",
               videoJobId := some "job-9" }) ∧
    updateScriptVideo [otherScript, sampleScript] "zzz" "failed" none none =
      ([otherScript, sampleScript], none) :=
  ⟨((C10_claim.1 [otherScript] [] sampleScript "complete"
      (some "https://x/new.mp4") (some "job-9")) (by decide)).1,
    C10_claim.2 [otherScript, sampleScript] "zzz" "failed" none none (by decide)⟩

end AdFactory
